import Mathlib

/-!
Verification of the betting analysis core (`betting_analyzer.py`) of the
bot_paris_sportifs repository.

The Python code is shallowly embedded over exact rationals (`ℚ` in place of
Python floats).  Python dictionaries with optional keys are embedded as
structures of `Option ℚ` fields; `dict.get(k, d)` becomes `Option.getD`,
while a bare `dict[k]` access that can raise `KeyError` is embedded as a
fallible operation.  Python exceptions escaping a function are embedded with
`Except`.  In-place mutation of analysis records (the `_extracted_odds` key)
is embedded by state passing: the mutating operation also returns the list of
records as it stands after the call.
-/

namespace Betting

/-- Best-odds dictionary for the three head-to-head outcomes, as produced by
`_get_best_odds_from_match` and consumed everywhere else.  A `none` field is
an absent dictionary key. -/
structure OddsDict where
  home : Option ℚ
  away : Option ℚ
  draw : Option ℚ
  deriving DecidableEq, Repr

/-- Probability dictionary built by `_calculate_probabilities`: a key is
present exactly when it was inserted. -/
structure Probs where
  home : Option ℚ
  away : Option ℚ
  draw : Option ℚ
  deriving DecidableEq, Repr

/-- Embedding of `BettingAnalyzer._calculate_probabilities`: raw probability
`1/odds` for each outcome with odds `> 0`, then normalisation by the summed
raw probabilities whenever that sum is positive. -/
def calcProbabilities (odds : OddsDict) : Probs :=
  let ph : Option ℚ := if 0 < odds.home.getD 0 then some (1 / odds.home.getD 0) else none
  let pa : Option ℚ := if 0 < odds.away.getD 0 then some (1 / odds.away.getD 0) else none
  let pd : Option ℚ := if 0 < odds.draw.getD 0 then some (1 / odds.draw.getD 0) else none
  let total : ℚ := ph.getD 0 + pa.getD 0 + pd.getD 0
  if 0 < total then
    { home := ph.map (fun p => p / total)
      away := pa.map (fun p => p / total)
      draw := pd.map (fun p => p / total) }
  else
    { home := ph, away := pa, draw := pd }

/-- The bookmaker overround: the sum of the raw implied probabilities of the
outcomes with positive odds (the `total_prob` accumulator of
`_calculate_probabilities`). -/
def totalImplied (odds : OddsDict) : ℚ :=
  (if 0 < odds.home.getD 0 then 1 / odds.home.getD 0 else 0)
  + (if 0 < odds.away.getD 0 then 1 / odds.away.getD 0 else 0)
  + (if 0 < odds.draw.getD 0 then 1 / odds.draw.getD 0 else 0)

/-- Sum of the entries actually present in a probability dictionary. -/
def probSum (p : Probs) : ℚ :=
  p.home.getD 0 + p.away.getD 0 + p.draw.getD 0

/-- Embedding of Python `int()` applied to a (here: rational) number:
truncation toward zero. -/
def pyTrunc (q : ℚ) : ℤ :=
  if 0 ≤ q then ⌊q⌋ else -⌊-q⌋

/-- Embedding of Python `round()` to an integer: round half to even
(banker's rounding), which is what Python 3 `round` implements. -/
def pyRound (q : ℚ) : ℤ :=
  let f := ⌊q⌋
  let r := q - (f : ℚ)
  if r < 1/2 then f
  else if 1/2 < r then f + 1
  else if f % 2 = 0 then f else f + 1

/-- Embedding of Python `round(x, 2)` over exact rationals. -/
def pyRound2 (q : ℚ) : ℚ :=
  (pyRound (q * 100) : ℚ) / 100

/-- One entry of the `options` list built by `_analyze_best_bet`. -/
structure BetOption where
  type : String
  team : String
  odds : ℚ
  probability : ℚ
  value_score : ℚ
  recommendation : String
  deriving DecidableEq, Repr

/-- The `combined_score` weighting added to every option by
`_analyze_best_bet`: `probability * 0.6 + max(0, value_score) * 0.4`. -/
def combinedScore (o : BetOption) : ℚ :=
  o.probability * (6/10) + max 0 o.value_score * (4/10)

/-- Embedding of CPython `max(..., key=f)` over a nonempty list, fed with the
head as initial current maximum: a later element replaces the current one
only when its key is strictly greater, so the first maximal element wins. -/
def pyMaxAux (f : BetOption → ℚ) (m : BetOption) : List BetOption → BetOption
  | [] => m
  | x :: xs => pyMaxAux f (if f m < f x then x else m) xs

/-- The dictionary returned by `_analyze_best_bet`. -/
structure BestBet where
  recommendation : String
  recommended_odds : ℚ
  probability : ℚ
  value_score : ℚ
  type : String
  deriving DecidableEq, Repr

/-- Embedding of `BettingAnalyzer._analyze_best_bet`: build one option per
outcome with positive odds (in the order home, away, draw), score each with
`combinedScore`, pick the maximum (first wins ties), and otherwise fall back
to the default home recommendation built from `dict.get` defaults. -/
def analyzeBestBet (odds : OddsDict) (probs : Probs) (homeTeam awayTeam : String) : BestBet :=
  let options : List BetOption :=
    (if 0 < odds.home.getD 0 then
      [{ type := "home", team := homeTeam, odds := odds.home.getD 0
         probability := probs.home.getD 0
         value_score := probs.home.getD 0 * odds.home.getD 0 - 1
         recommendation := "Victoire " ++ homeTeam }] else [])
    ++ (if 0 < odds.away.getD 0 then
      [{ type := "away", team := awayTeam, odds := odds.away.getD 0
         probability := probs.away.getD 0
         value_score := probs.away.getD 0 * odds.away.getD 0 - 1
         recommendation := "Victoire " ++ awayTeam }] else [])
    ++ (if 0 < odds.draw.getD 0 then
      [{ type := "draw", team := "Match nul", odds := odds.draw.getD 0
         probability := probs.draw.getD 0
         value_score := probs.draw.getD 0 * odds.draw.getD 0 - 1
         recommendation := "Match nul" }] else [])
  match options with
  | [] =>
    { recommendation := "Victoire " ++ homeTeam
      recommended_odds := odds.home.getD 2
      probability := probs.home.getD (2/5)
      value_score := 0
      type := "home" }
  | x :: xs =>
    let best := pyMaxAux combinedScore x xs
    { recommendation := best.recommendation
      recommended_odds := best.odds
      probability := best.probability
      value_score := best.value_score
      type := best.type }

/-- The claim's combined score of an outcome with normalised probability `p`
and odds `o`: `0.6 * p + 0.4 * max 0 (p * o - 1)`. -/
def outcomeScore (p o : ℚ) : ℚ :=
  p * (6/10) + max 0 (p * o - 1) * (4/10)

/-- Embedding of `BettingAnalyzer._calculate_enhanced_confidence`.  The odds
dictionary is passed by the source but never read. -/
def enhancedConfidence (analysis : BestBet) (odds : OddsDict) (isValue : Bool) : ℤ :=
  let base0 : ℚ := analysis.probability * 100
  let base1 : ℚ := if isValue then base0 + 10 else base0
  let base2 : ℚ :=
    if analysis.recommended_odds < 3/2 then base1 + 20
    else if 4 < analysis.recommended_odds then base1 - 15
    else base1
  let base3 : ℚ :=
    if 1/10 < analysis.value_score then base2 + 15
    else if analysis.value_score < -(1/10) then base2 - 10
    else base2
  max 0 (min 100 (pyTrunc base3))

/-- Modelled from the spec's wording of the confidence formula, for the
refinement comparison of claim C3: truncate `probability * 100` to an
integer, add the bonuses and maluses, and clamp to `[0, 100]`. -/
def specConfidence (p ro vs : ℚ) (isValue : Bool) : ℤ :=
  max 0 (min 100 (pyTrunc (p * 100)
    + (if isValue then 10 else 0)
    + (if ro < 3/2 then 20 else 0)
    + (if 4 < ro then -15 else 0)
    + (if 1/10 < vs then 15 else 0)
    + (if vs < -(1/10) then -10 else 0)))

/-- Python exceptions that can escape the embedded operations. -/
inductive PyErr where
  | parseError
  | keyError
  | zeroDivision
  deriving DecidableEq, Repr

/-- One iteration of the `_is_value_bet` loop for one outcome: skipped when
the probability key is absent, `KeyError` when the probability key is present
but the odds key is not, and otherwise the band-and-threshold test
`min_odds <= odds <= max_odds and prob > thr`. -/
def vbCheck (minOdds maxOdds thr : ℚ) (oddsEntry probEntry : Option ℚ) : Except PyErr Bool :=
  match probEntry with
  | none => .ok false
  | some p =>
    match oddsEntry with
    | none => .error .keyError
    | some o => .ok (decide (minOdds ≤ o) && decide (o ≤ maxOdds) && decide (thr < p))

/-- Embedding of `BettingAnalyzer._is_value_bet`: iterate over the entries of
the probability dictionary in insertion order (home, away, draw), returning
`True` at the first outcome that passes its check; threshold `0.3` for home
and away, `0.25` for draw. -/
def isValueBet (minOdds maxOdds : ℚ) (odds : OddsDict) (probs : Probs) : Except PyErr Bool :=
  match vbCheck minOdds maxOdds (3/10) odds.home probs.home with
  | .error e => .error e
  | .ok true => .ok true
  | .ok false =>
    match vbCheck minOdds maxOdds (3/10) odds.away probs.away with
    | .error e => .error e
    | .ok true => .ok true
    | .ok false =>
      match vbCheck minOdds maxOdds (1/4) odds.draw probs.draw with
      | .error e => .error e
      | .ok b => .ok b

/-- One outcome of the claim's value-bet rule: the outcome is present in the
probability map, its odds lie inside the closed band, and its probability is
strictly above the threshold. -/
def specCheck (minOdds maxOdds thr : ℚ) (oddsEntry probEntry : Option ℚ) : Bool :=
  match probEntry, oddsEntry with
  | some p, some o => decide (minOdds ≤ o) && decide (o ≤ maxOdds) && decide (thr < p)
  | _, _ => false

/-- Modelled from the spec's wording of the value-bet rule, for the
refinement comparison of claim C5: some outcome present in the probability
map has odds inside the closed band and probability strictly above its
per-outcome threshold (0.3 for home and away, 0.25 for draw). -/
def valueBetSpec (minOdds maxOdds : ℚ) (odds : OddsDict) (probs : Probs) : Bool :=
  specCheck minOdds maxOdds (3/10) odds.home probs.home
  || specCheck minOdds maxOdds (3/10) odds.away probs.away
  || specCheck minOdds maxOdds (1/4) odds.draw probs.draw

/-- A match-analysis record as consumed by the combination builders.  Only
the keys those builders read are modelled; `extractedOdds` is the optional
`_extracted_odds` key, absent (`none`) until the odds-sorting path of
`generate_specific_combination` writes it. -/
structure Analysis where
  matchLabel : String
  recommendation : String
  confidence : ℤ
  value_bet : Bool
  extractedOdds : Option ℚ := none
  deriving DecidableEq, Repr

/-- Fuel-driven splitter over character lists implementing Python
`str.split(sep)` for a nonempty separator: left-to-right scan, shortest
non-overlapping matches. -/
def splitGo (sep : List Char) : ℕ → List Char → List Char → List (List Char)
  | 0, acc, s => [acc.reverse ++ s]
  | fuel + 1, acc, s =>
    if sep.isPrefixOf s then
      acc.reverse :: splitGo sep fuel [] (s.drop sep.length)
    else
      match s with
      | [] => [acc.reverse]
      | c :: cs => splitGo sep fuel (c :: acc) cs

/-- Python `s.split(sep)` over character lists (always returns a nonempty
list, like Python's `split`). -/
def listSplit (sep s : List Char) : List (List Char) :=
  splitGo sep (s.length + 1) [] s

/-- Decimal value of a digit list. -/
def digitsVal (l : List Char) : ℕ :=
  l.foldl (fun n c => 10 * n + (c.toNat - 48)) 0

/-- Embedding of Python `float()` on the decimal strings the analyzer
produces and consumes: optional sign, digits, optional fractional part.
Anything outside this shape is a parse failure. -/
def pyFloat (cs : List Char) : Option ℚ :=
  let signed : ℚ × List Char :=
    match cs with
    | '-' :: rest => (-1, rest)
    | '+' :: rest => (1, rest)
    | _ => (1, cs)
  match listSplit ['.'] signed.2 with
  | [ip] =>
    if !ip.isEmpty && ip.all Char.isDigit then
      some (signed.1 * (digitsVal ip : ℚ))
    else none
  | [ip, fp] =>
    if !(ip ++ fp).isEmpty && (ip ++ fp).all Char.isDigit then
      some (signed.1 * ((digitsVal ip : ℚ) + (digitsVal fp : ℚ) / 10 ^ fp.length))
    else none
  | _ => none

/-- Embedding of the odds re-extraction
`float(rec.split('(cote: ')[1].split(')')[0])`: `none` is the raised
`IndexError`/`ValueError`. -/
def extractOdds (rec : String) : Option ℚ :=
  match (listSplit "(cote: ".toList rec.toList).get? 1 with
  | none => none
  | some seg => pyFloat ((listSplit [')'] seg).headD [])

/-- One leg of an assembled combination (the dictionaries appended to
`matches` in `_create_combination`). -/
structure ComboLeg where
  matchLabel : String
  bet : String
  confidence : ℤ
  deriving DecidableEq, Repr

/-- The combination dictionary built by `_create_combination`.
`potential_return` keeps the rounded amount interpolated into the
`potential_return` string. -/
structure Combination where
  type : String
  «matches» : List ComboLeg
  total_odds : ℚ
  avg_confidence : ℤ
  potential_return : ℚ
  deriving DecidableEq, Repr

/-- The extraction loop of `_create_combination`: pair every bet with the
odds parsed back out of its recommendation, failing at the first bet whose
text does not parse (the uncaught `IndexError`/`ValueError`). -/
def collectLegs : List Analysis → Except PyErr (List (ℚ × Analysis))
  | [] => .ok []
  | b :: bs =>
    match extractOdds b.recommendation with
    | none => .error .parseError
    | some q =>
      match collectLegs bs with
      | .error e => .error e
      | .ok rest => .ok ((q, b) :: rest)

/-- Embedding of `BettingAnalyzer._create_combination`: multiply the
extracted odds, sum the confidences, average over the number of bets
(`ZeroDivisionError` on an empty list), and round as the source does. -/
def createCombination (bets : List Analysis) (comboType : String) : Except PyErr Combination :=
  match collectLegs bets with
  | .error e => .error e
  | .ok legs =>
    let totalOdds : ℚ := legs.foldl (fun acc l => acc * l.1) 1
    let totalConf : ℤ := legs.foldl (fun acc l => acc + l.2.confidence) 0
    if bets.length = 0 then .error .zeroDivision
    else
      .ok { type := comboType
            «matches» := legs.map (fun l => ⟨l.2.matchLabel, l.2.recommendation, l.2.confidence⟩)
            total_odds := pyRound2 totalOdds
            avg_confidence := pyRound ((totalConf : ℚ) / (bets.length : ℚ))
            potential_return := pyRound2 (totalOdds * 10) }

/-- Stable descending insertion by key: the inserted element `x` comes from
earlier in the original list than everything already inserted, so it goes in
front of the first element whose key is not greater. -/
def insertDescBy {β : Type} [LinearOrder β] (key : Analysis → β) (x : Analysis) :
    List Analysis → List Analysis
  | [] => [x]
  | y :: ys => if key y ≤ key x then x :: y :: ys else y :: insertDescBy key x ys

/-- Stable descending sort by key, the embedding of Python
`sorted(..., key=key, reverse=True)` (timsort is stable). -/
def sortDescBy {β : Type} [LinearOrder β] (key : Analysis → β) : List Analysis → List Analysis
  | [] => []
  | x :: xs => insertDescBy key x (sortDescBy key xs)

/-- Embedding of `BettingAnalyzer.generate_combinations`.  The in-place
`random.shuffle` is embedded as an explicit `shuffle` function applied to the
qualifying pool.  The source mutates no analysis record, so the operation
also returns the input records unchanged as its second component (the
post-call state of the caller's records). -/
def generateCombinations (shuffle : List Analysis → List Analysis)
    (analyses : List Analysis) (comboSize : ℕ) :
    Except PyErr (List Combination) × List Analysis :=
  if analyses.length < comboSize then (.ok [], analyses)
  else
    let goodBets := analyses.filter (fun a => 50 ≤ a.confidence)
    if goodBets.length < comboSize then (.ok [], analyses)
    else
      match createCombination ((sortDescBy (fun a => a.confidence) goodBets).take comboSize)
          "Combiné Sûr" with
      | .error e => (.error e, analyses)
      | .ok c1 =>
        let valueBets := goodBets.filter (fun a => a.value_bet)
        let step2 : Except PyErr (List Combination) :=
          if comboSize ≤ valueBets.length then
            match createCombination (valueBets.take comboSize) "Combiné Value" with
            | .error e => .error e
            | .ok c2 => .ok [c1, c2]
          else .ok [c1]
        match step2 with
        | .error e => (.error e, analyses)
        | .ok cs =>
          if comboSize ≤ goodBets.length then
            match createCombination ((shuffle goodBets).take comboSize) "Combiné Mixte" with
            | .error e => (.error e, analyses)
            | .ok c3 => (.ok (cs ++ [c3]), analyses)
          else (.ok cs, analyses)

/-- Which key a tier sorts by (`sort_by` in the per-level configuration). -/
inductive SortKey where
  | confidence
  | odds
  deriving DecidableEq, Repr

/-- One entry of the `level_configs` table of
`generate_specific_combination`; `desc` is `True` for every tier, so the
descending direction is baked into the sort. -/
structure LevelConfig where
  minConfidence : ℤ
  comboSize : ℕ
  sortBy : SortKey
  deriving DecidableEq, Repr

/-- The `level_configs` lookup `level_configs.get(level, level_configs["MOYEN"])`. -/
def levelConfig (level : String) : LevelConfig :=
  if level = "SAFE" then ⟨75, 3, .confidence⟩
  else if level = "MOYEN" then ⟨60, 4, .confidence⟩
  else if level = "HIGH_RISK" then ⟨45, 5, .odds⟩
  else ⟨60, 4, .confidence⟩

/-- The `combo_type_names` table, looked up with plain subscription:
`none` is the raised `KeyError`. -/
def comboTypeNames (level : String) : Option String :=
  if level = "SAFE" then some "Combiné SAFE 🛡️"
  else if level = "MOYEN" then some "Combiné MOYEN ⚖️"
  else if level = "HIGH_RISK" then some "Combiné HIGH RISK 🚀"
  else none

/-- The record mutation `bet['_extracted_odds'] = ...` of the odds-sorting
path: parse the odds back out of the recommendation, defaulting to `2.0` on
parse failure (the `except` branch). -/
def assignExtractedOdds (b : Analysis) : Analysis :=
  { b with extractedOdds := some ((extractOdds b.recommendation).getD 2) }

/-- Embedding of `BettingAnalyzer.generate_specific_combination`.  The first
component is the returned value (`none` embeds Python's `None` for fewer
than 3 analyses) or the escaped exception; the second component is the state
of the caller's records after the call: the odds-sorting path writes the
`_extracted_odds` key into every record of the filtered pool, every other
path leaves the records untouched. -/
def genSpecificCombination (analyses : List Analysis) (level : String) :
    Except PyErr (Option Combination) × List Analysis :=
  if analyses.length < 3 then (.ok none, analyses)
  else
    let config := levelConfig level
    let filtered0 := analyses.filter (fun b => config.minConfidence ≤ b.confidence)
    let filtered :=
      if filtered0.length < 3 then
        (sortDescBy (fun a => a.confidence) analyses).take config.comboSize
      else filtered0
    match config.sortBy with
    | .confidence =>
      let selected := sortDescBy (fun a => a.confidence) filtered
      let finalBets := selected.take (min config.comboSize selected.length)
      match comboTypeNames level with
      | none => (.error .keyError, analyses)
      | some nm =>
        match createCombination finalBets nm with
        | .error e => (.error e, analyses)
        | .ok c => (.ok (some c), analyses)
    | .odds =>
      let selected := sortDescBy (fun a => a.extractedOdds.getD 0)
        (filtered.map assignExtractedOdds)
      let post := analyses.map (fun a => if a ∈ filtered then assignExtractedOdds a else a)
      let finalBets := selected.take (min config.comboSize selected.length)
      match comboTypeNames level with
      | none => (.error .keyError, post)
      | some nm =>
        match createCombination finalBets nm with
        | .error e => (.error e, post)
        | .ok c => (.ok (some c), post)

/-! ## Claim theorems -/

/-- C1: for every odds set in which at least one of the outcomes
home/away/draw has odds > 0, `_calculate_probabilities` returns a probability
map whose keys are exactly the outcomes with odds > 0, where each entry
equals `(1/odds)` divided by the sum of `1/odds` over those outcomes, and the
entries sum to 1 (exactly, over rationals). -/
theorem c1_calculate_probabilities_normalized (odds : OddsDict)
    (hpos : 0 < odds.home.getD 0 ∨ 0 < odds.away.getD 0 ∨ 0 < odds.draw.getD 0) :
    (calcProbabilities odds).home =
      (if 0 < odds.home.getD 0 then some ((1 / odds.home.getD 0) / totalImplied odds) else none)
    ∧ (calcProbabilities odds).away =
      (if 0 < odds.away.getD 0 then some ((1 / odds.away.getD 0) / totalImplied odds) else none)
    ∧ (calcProbabilities odds).draw =
      (if 0 < odds.draw.getD 0 then some ((1 / odds.draw.getD 0) / totalImplied odds) else none)
    ∧ probSum (calcProbabilities odds) = 1 := by
  have nn : ∀ x : ℚ, 0 ≤ (if 0 < x then 1 / x else 0) := by
    intro x; split_ifs with h
    · positivity
    · exact le_refl 0
  have pp : ∀ x : ℚ, 0 < x → 0 < (if 0 < x then 1 / x else 0) := by
    intro x h; rw [if_pos h]; positivity
  have hT : 0 < totalImplied odds := by
    unfold totalImplied
    rcases hpos with h | h | h
    · have := pp _ h
      have := nn (odds.away.getD 0)
      have := nn (odds.draw.getD 0)
      linarith
    · have := pp _ h
      have := nn (odds.home.getD 0)
      have := nn (odds.draw.getD 0)
      linarith
    · have := pp _ h
      have := nn (odds.home.getD 0)
      have := nn (odds.away.getD 0)
      linarith
  have key : ∀ x : ℚ, (if 0 < x then some (1 / x) else none).getD 0
      = if 0 < x then 1 / x else 0 := by
    intro x; split_ifs <;> rfl
  have hTI : (if 0 < odds.home.getD 0 then 1 / odds.home.getD 0 else 0)
      + (if 0 < odds.away.getD 0 then 1 / odds.away.getD 0 else 0)
      + (if 0 < odds.draw.getD 0 then 1 / odds.draw.getD 0 else 0)
      = totalImplied odds := rfl
  have hmain : calcProbabilities odds =
      { home := if 0 < odds.home.getD 0 then
          some ((1 / odds.home.getD 0) / totalImplied odds) else none
        away := if 0 < odds.away.getD 0 then
          some ((1 / odds.away.getD 0) / totalImplied odds) else none
        draw := if 0 < odds.draw.getD 0 then
          some ((1 / odds.draw.getD 0) / totalImplied odds) else none } := by
    simp only [calcProbabilities]
    rw [key, key, key, hTI, if_pos hT]
    congr 1 <;> split_ifs <;> simp
  have key2 : ∀ x : ℚ,
      (if 0 < x then some ((1 / x) / totalImplied odds) else none).getD 0
      = (if 0 < x then 1 / x else 0) / totalImplied odds := by
    intro x; split_ifs <;> simp [zero_div]
  refine ⟨by rw [hmain], by rw [hmain], by rw [hmain], ?_⟩
  rw [hmain]
  unfold probSum
  dsimp only
  rw [key2, key2, key2, div_add_div_same, div_add_div_same, hTI, div_self hT.ne']

/-- Witness for C1 at the odds set home 2, away 4, draw 4. -/
theorem c1_calculate_probabilities_normalized_witness :
    (0 < (OddsDict.mk (some 2) (some 4) (some 4)).home.getD 0
      ∨ 0 < (OddsDict.mk (some 2) (some 4) (some 4)).away.getD 0
      ∨ 0 < (OddsDict.mk (some 2) (some 4) (some 4)).draw.getD 0)
    ∧ ((calcProbabilities (OddsDict.mk (some 2) (some 4) (some 4))).home =
        (if 0 < (OddsDict.mk (some 2) (some 4) (some 4)).home.getD 0 then
          some ((1 / (OddsDict.mk (some 2) (some 4) (some 4)).home.getD 0)
            / totalImplied (OddsDict.mk (some 2) (some 4) (some 4))) else none)
      ∧ (calcProbabilities (OddsDict.mk (some 2) (some 4) (some 4))).away =
        (if 0 < (OddsDict.mk (some 2) (some 4) (some 4)).away.getD 0 then
          some ((1 / (OddsDict.mk (some 2) (some 4) (some 4)).away.getD 0)
            / totalImplied (OddsDict.mk (some 2) (some 4) (some 4))) else none)
      ∧ (calcProbabilities (OddsDict.mk (some 2) (some 4) (some 4))).draw =
        (if 0 < (OddsDict.mk (some 2) (some 4) (some 4)).draw.getD 0 then
          some ((1 / (OddsDict.mk (some 2) (some 4) (some 4)).draw.getD 0)
            / totalImplied (OddsDict.mk (some 2) (some 4) (some 4))) else none)
      ∧ probSum (calcProbabilities (OddsDict.mk (some 2) (some 4) (some 4))) = 1) :=
  ⟨Or.inl (by norm_num),
    c1_calculate_probabilities_normalized (OddsDict.mk (some 2) (some 4) (some 4))
      (Or.inl (by norm_num))⟩

/-- C2: for every odds set and probability map in which at least one outcome
has odds > 0, `_analyze_best_bet` selects the outcome maximizing
`combined_score = 0.6 * probability + 0.4 * max 0 (probability * odds - 1)`;
on ties the earliest outcome in the fixed order home, away, draw wins (an
earlier present outcome never loses on an equal score, expressed by the
strict inequalities an outcome must win against its predecessors). -/
theorem c2_best_bet_argmax_tiebreak (odds : OddsDict) (probs : Probs) (hT aT : String)
    (hpos : 0 < odds.home.getD 0 ∨ 0 < odds.away.getD 0 ∨ 0 < odds.draw.getD 0) :
    (0 < odds.home.getD 0
      ∧ analyzeBestBet odds probs hT aT =
        { recommendation := "Victoire " ++ hT
          recommended_odds := odds.home.getD 0
          probability := probs.home.getD 0
          value_score := probs.home.getD 0 * odds.home.getD 0 - 1
          type := "home" }
      ∧ (0 < odds.away.getD 0 →
          outcomeScore (probs.away.getD 0) (odds.away.getD 0)
            ≤ outcomeScore (probs.home.getD 0) (odds.home.getD 0))
      ∧ (0 < odds.draw.getD 0 →
          outcomeScore (probs.draw.getD 0) (odds.draw.getD 0)
            ≤ outcomeScore (probs.home.getD 0) (odds.home.getD 0)))
    ∨ (0 < odds.away.getD 0
      ∧ analyzeBestBet odds probs hT aT =
        { recommendation := "Victoire " ++ aT
          recommended_odds := odds.away.getD 0
          probability := probs.away.getD 0
          value_score := probs.away.getD 0 * odds.away.getD 0 - 1
          type := "away" }
      ∧ (0 < odds.home.getD 0 →
          outcomeScore (probs.home.getD 0) (odds.home.getD 0)
            < outcomeScore (probs.away.getD 0) (odds.away.getD 0))
      ∧ (0 < odds.draw.getD 0 →
          outcomeScore (probs.draw.getD 0) (odds.draw.getD 0)
            ≤ outcomeScore (probs.away.getD 0) (odds.away.getD 0)))
    ∨ (0 < odds.draw.getD 0
      ∧ analyzeBestBet odds probs hT aT =
        { recommendation := "Match nul"
          recommended_odds := odds.draw.getD 0
          probability := probs.draw.getD 0
          value_score := probs.draw.getD 0 * odds.draw.getD 0 - 1
          type := "draw" }
      ∧ (0 < odds.home.getD 0 →
          outcomeScore (probs.home.getD 0) (odds.home.getD 0)
            < outcomeScore (probs.draw.getD 0) (odds.draw.getD 0))
      ∧ (0 < odds.away.getD 0 →
          outcomeScore (probs.away.getD 0) (odds.away.getD 0)
            < outcomeScore (probs.draw.getD 0) (odds.draw.getD 0))) := by
  by_cases h1 : 0 < odds.home.getD 0 <;> by_cases h2 : 0 < odds.away.getD 0
    <;> by_cases h3 : 0 < odds.draw.getD 0
  · -- home, away, draw present
    simp only [analyzeBestBet]
    rw [if_pos h1, if_pos h2, if_pos h3]
    simp only [List.cons_append, List.nil_append, pyMaxAux]
    split_ifs with hab hd hd
    · exact Or.inr (Or.inr ⟨h3, by trivial, fun _ => lt_trans hab hd, fun _ => hd⟩)
    · exact Or.inr (Or.inl ⟨h2, by trivial, fun _ => hab, fun _ => le_of_not_lt hd⟩)
    · exact Or.inr (Or.inr ⟨h3, by trivial, fun _ => hd,
        fun _ => lt_of_le_of_lt (le_of_not_lt hab) hd⟩)
    · exact Or.inl ⟨h1, by trivial, fun _ => le_of_not_lt hab, fun _ => le_of_not_lt hd⟩
  · -- home, away present
    simp only [analyzeBestBet]
    rw [if_pos h1, if_pos h2, if_neg h3]
    simp only [List.cons_append, List.nil_append, List.append_nil, pyMaxAux]
    split_ifs with hab
    · exact Or.inr (Or.inl ⟨h2, by trivial, fun _ => hab, fun h => absurd h h3⟩)
    · exact Or.inl ⟨h1, by trivial, fun _ => le_of_not_lt hab, fun h => absurd h h3⟩
  · -- home, draw present
    simp only [analyzeBestBet]
    rw [if_pos h1, if_neg h2, if_pos h3]
    simp only [List.cons_append, List.nil_append, pyMaxAux]
    split_ifs with hhd
    · exact Or.inr (Or.inr ⟨h3, by trivial, fun _ => hhd, fun h => absurd h h2⟩)
    · exact Or.inl ⟨h1, by trivial, fun h => absurd h h2, fun _ => le_of_not_lt hhd⟩
  · -- home only
    simp only [analyzeBestBet]
    rw [if_pos h1, if_neg h2, if_neg h3]
    simp only [List.cons_append, List.nil_append, List.append_nil, pyMaxAux]
    exact Or.inl ⟨h1, by trivial, fun h => absurd h h2, fun h => absurd h h3⟩
  · -- away, draw present
    simp only [analyzeBestBet]
    rw [if_neg h1, if_pos h2, if_pos h3]
    simp only [List.cons_append, List.nil_append, pyMaxAux]
    split_ifs with had
    · exact Or.inr (Or.inr ⟨h3, by trivial, fun h => absurd h h1, fun _ => had⟩)
    · exact Or.inr (Or.inl ⟨h2, by trivial, fun h => absurd h h1, fun _ => le_of_not_lt had⟩)
  · -- away only
    simp only [analyzeBestBet]
    rw [if_neg h1, if_pos h2, if_neg h3]
    simp only [List.cons_append, List.nil_append, List.append_nil, pyMaxAux]
    exact Or.inr (Or.inl ⟨h2, by trivial, fun h => absurd h h1, fun h => absurd h h3⟩)
  · -- draw only
    simp only [analyzeBestBet]
    rw [if_neg h1, if_neg h2, if_pos h3]
    simp only [List.cons_append, List.nil_append, pyMaxAux]
    exact Or.inr (Or.inr ⟨h3, by trivial, fun h => absurd h h1, fun h => absurd h h2⟩)
  · -- no outcome present: contradicts the hypothesis
    rcases hpos with h | h | h <;> contradiction

/-- Witness for C2 at odds home 2, away 4, draw 4 with the normalized
probabilities of that odds set. -/
theorem c2_best_bet_argmax_tiebreak_witness :
    (0 < (OddsDict.mk (some 2) (some 4) (some 4)).home.getD 0
      ∨ 0 < (OddsDict.mk (some 2) (some 4) (some 4)).away.getD 0
      ∨ 0 < (OddsDict.mk (some 2) (some 4) (some 4)).draw.getD 0)
    ∧ ((0 < (OddsDict.mk (some 2) (some 4) (some 4)).home.getD 0
      ∧ analyzeBestBet (OddsDict.mk (some 2) (some 4) (some 4))
          (calcProbabilities (OddsDict.mk (some 2) (some 4) (some 4))) "H" "A" =
        { recommendation := "Victoire " ++ "H"
          recommended_odds := (OddsDict.mk (some 2) (some 4) (some 4)).home.getD 0
          probability := (calcProbabilities (OddsDict.mk (some 2) (some 4) (some 4))).home.getD 0
          value_score := (calcProbabilities (OddsDict.mk (some 2) (some 4) (some 4))).home.getD 0
            * (OddsDict.mk (some 2) (some 4) (some 4)).home.getD 0 - 1
          type := "home" }
      ∧ (0 < (OddsDict.mk (some 2) (some 4) (some 4)).away.getD 0 →
          outcomeScore ((calcProbabilities (OddsDict.mk (some 2) (some 4) (some 4))).away.getD 0)
              ((OddsDict.mk (some 2) (some 4) (some 4)).away.getD 0)
            ≤ outcomeScore ((calcProbabilities (OddsDict.mk (some 2) (some 4) (some 4))).home.getD 0)
              ((OddsDict.mk (some 2) (some 4) (some 4)).home.getD 0))
      ∧ (0 < (OddsDict.mk (some 2) (some 4) (some 4)).draw.getD 0 →
          outcomeScore ((calcProbabilities (OddsDict.mk (some 2) (some 4) (some 4))).draw.getD 0)
              ((OddsDict.mk (some 2) (some 4) (some 4)).draw.getD 0)
            ≤ outcomeScore ((calcProbabilities (OddsDict.mk (some 2) (some 4) (some 4))).home.getD 0)
              ((OddsDict.mk (some 2) (some 4) (some 4)).home.getD 0)))
    ∨ (0 < (OddsDict.mk (some 2) (some 4) (some 4)).away.getD 0
      ∧ analyzeBestBet (OddsDict.mk (some 2) (some 4) (some 4))
          (calcProbabilities (OddsDict.mk (some 2) (some 4) (some 4))) "H" "A" =
        { recommendation := "Victoire " ++ "A"
          recommended_odds := (OddsDict.mk (some 2) (some 4) (some 4)).away.getD 0
          probability := (calcProbabilities (OddsDict.mk (some 2) (some 4) (some 4))).away.getD 0
          value_score := (calcProbabilities (OddsDict.mk (some 2) (some 4) (some 4))).away.getD 0
            * (OddsDict.mk (some 2) (some 4) (some 4)).away.getD 0 - 1
          type := "away" }
      ∧ (0 < (OddsDict.mk (some 2) (some 4) (some 4)).home.getD 0 →
          outcomeScore ((calcProbabilities (OddsDict.mk (some 2) (some 4) (some 4))).home.getD 0)
              ((OddsDict.mk (some 2) (some 4) (some 4)).home.getD 0)
            < outcomeScore ((calcProbabilities (OddsDict.mk (some 2) (some 4) (some 4))).away.getD 0)
              ((OddsDict.mk (some 2) (some 4) (some 4)).away.getD 0))
      ∧ (0 < (OddsDict.mk (some 2) (some 4) (some 4)).draw.getD 0 →
          outcomeScore ((calcProbabilities (OddsDict.mk (some 2) (some 4) (some 4))).draw.getD 0)
              ((OddsDict.mk (some 2) (some 4) (some 4)).draw.getD 0)
            ≤ outcomeScore ((calcProbabilities (OddsDict.mk (some 2) (some 4) (some 4))).away.getD 0)
              ((OddsDict.mk (some 2) (some 4) (some 4)).away.getD 0)))
    ∨ (0 < (OddsDict.mk (some 2) (some 4) (some 4)).draw.getD 0
      ∧ analyzeBestBet (OddsDict.mk (some 2) (some 4) (some 4))
          (calcProbabilities (OddsDict.mk (some 2) (some 4) (some 4))) "H" "A" =
        { recommendation := "Match nul"
          recommended_odds := (OddsDict.mk (some 2) (some 4) (some 4)).draw.getD 0
          probability := (calcProbabilities (OddsDict.mk (some 2) (some 4) (some 4))).draw.getD 0
          value_score := (calcProbabilities (OddsDict.mk (some 2) (some 4) (some 4))).draw.getD 0
            * (OddsDict.mk (some 2) (some 4) (some 4)).draw.getD 0 - 1
          type := "draw" }
      ∧ (0 < (OddsDict.mk (some 2) (some 4) (some 4)).home.getD 0 →
          outcomeScore ((calcProbabilities (OddsDict.mk (some 2) (some 4) (some 4))).home.getD 0)
              ((OddsDict.mk (some 2) (some 4) (some 4)).home.getD 0)
            < outcomeScore ((calcProbabilities (OddsDict.mk (some 2) (some 4) (some 4))).draw.getD 0)
              ((OddsDict.mk (some 2) (some 4) (some 4)).draw.getD 0))
      ∧ (0 < (OddsDict.mk (some 2) (some 4) (some 4)).away.getD 0 →
          outcomeScore ((calcProbabilities (OddsDict.mk (some 2) (some 4) (some 4))).away.getD 0)
              ((OddsDict.mk (some 2) (some 4) (some 4)).away.getD 0)
            < outcomeScore ((calcProbabilities (OddsDict.mk (some 2) (some 4) (some 4))).draw.getD 0)
              ((OddsDict.mk (some 2) (some 4) (some 4)).draw.getD 0)))) :=
  ⟨Or.inl (by norm_num),
    c2_best_bet_argmax_tiebreak (OddsDict.mk (some 2) (some 4) (some 4))
      (calcProbabilities (OddsDict.mk (some 2) (some 4) (some 4))) "H" "A"
      (Or.inl (by norm_num))⟩

/-- C3: `_calculate_enhanced_confidence` computes, for nonnegative
probabilities, the integer truncation of `probability * 100` plus 10 for a
value bet, plus 20 for recommended odds < 1.5, minus 15 for recommended odds
> 4.0, plus 15 for value_score > 0.1, minus 10 for value_score < -0.1,
clamped to [0, 100]; and its result lies in [0, 100] for all inputs,
extreme ones included. -/
theorem c3_enhanced_confidence_formula_and_clamp (rec ty : String) (p ro vs : ℚ)
    (odds : OddsDict) (iv : Bool) :
    (0 ≤ p →
      enhancedConfidence ⟨rec, ro, p, vs, ty⟩ odds iv = specConfidence p ro vs iv)
    ∧ 0 ≤ enhancedConfidence ⟨rec, ro, p, vs, ty⟩ odds iv
    ∧ enhancedConfidence ⟨rec, ro, p, vs, ty⟩ odds iv ≤ 100 := by
  refine ⟨?_, ?_, ?_⟩
  · intro hp
    have hp100 : (0:ℚ) ≤ p * 100 := by linarith
    obtain ⟨B, hB⟩ : ∃ B : ℤ, B =
        (if iv then 10 else 0) + (if ro < 3/2 then 20 else 0)
        + (if 4 < ro then -15 else 0) + (if 1/10 < vs then 15 else 0)
        + (if vs < -(1/10) then -10 else 0) := ⟨_, rfl⟩
    have hL : enhancedConfidence ⟨rec, ro, p, vs, ty⟩ odds iv
        = max 0 (min 100 (pyTrunc (p * 100 + (B : ℚ)))) := by
      unfold enhancedConfidence
      dsimp only
      congr 1
      congr 1
      congr 1
      rw [hB]
      push_cast
      split_ifs <;> linarith
    have key : max 0 (min 100 (pyTrunc (p * 100 + (B : ℚ))))
        = max 0 (min 100 (pyTrunc (p * 100) + B)) := by
      by_cases hx : 0 ≤ p * 100 + (B : ℚ)
      · have h1 : pyTrunc (p * 100 + (B : ℚ)) = pyTrunc (p * 100) + B := by
          unfold pyTrunc
          rw [if_pos hx, if_pos hp100]
          exact_mod_cast Int.floor_add_int (p * 100) B
        rw [h1]
      · have hneg : p * 100 + (B : ℚ) < 0 := not_le.mp hx
        have hLz : pyTrunc (p * 100 + (B : ℚ)) ≤ 0 := by
          unfold pyTrunc
          rw [if_neg hx]
          have h0 : 0 ≤ ⌊-(p * 100 + (B : ℚ))⌋ := Int.floor_nonneg.mpr (by linarith)
          omega
        have hRz : pyTrunc (p * 100) + B ≤ 0 := by
          unfold pyTrunc
          rw [if_pos hp100]
          have h1 : (⌊p * 100⌋ : ℚ) ≤ p * 100 := Int.floor_le _
          have h2 : ((⌊p * 100⌋ + B : ℤ) : ℚ) < 0 := by push_cast; linarith
          have h3 : (⌊p * 100⌋ + B : ℤ) < 0 := by exact_mod_cast h2
          omega
        rw [min_eq_right (le_trans hLz (by norm_num)), max_eq_left hLz,
          min_eq_right (le_trans hRz (by norm_num)), max_eq_left hRz]
    rw [hL, key]
    unfold specConfidence
    rw [hB]
    congr 1
    congr 1
    ring
  · unfold enhancedConfidence
    dsimp only
    exact le_max_left 0 _
  · unfold enhancedConfidence
    dsimp only
    exact max_le (by norm_num) (min_le_left _ _)

/-- Witness for C3 at probability 1/2, recommended odds 2, value score 0,
no value-bet flag. -/
theorem c3_enhanced_confidence_formula_and_clamp_witness :
    (0 ≤ (1/2 : ℚ))
    ∧ ((0 ≤ (1/2 : ℚ) →
        enhancedConfidence ⟨"r", 2, 1/2, 0, "t"⟩ (OddsDict.mk none none none) false
          = specConfidence (1/2) 2 0 false)
      ∧ 0 ≤ enhancedConfidence ⟨"r", 2, 1/2, 0, "t"⟩ (OddsDict.mk none none none) false
      ∧ enhancedConfidence ⟨"r", 2, 1/2, 0, "t"⟩ (OddsDict.mk none none none) false ≤ 100) :=
  ⟨by norm_num,
    c3_enhanced_confidence_formula_and_clamp "r" "t" (1/2) 2 0
      (OddsDict.mk none none none) false⟩

/-- C4 counterexample: on the odds dictionary whose home/away/draw keys are
all present with value 0 (no outcome has odds > 0), `_analyze_best_bet` does
not return the documented default odds 2.0: `odds.get('home', 2.0)` finds the
present home key and returns 0. -/
theorem c4_default_fallback_counterexample :
    analyzeBestBet (OddsDict.mk (some 0) (some 0) (some 0))
        (calcProbabilities (OddsDict.mk (some 0) (some 0) (some 0))) "H" "A"
      = { recommendation := "Victoire " ++ "H", recommended_odds := 0,
          probability := 2/5, value_score := 0, type := "home" }
    ∧ (0 : ℚ) ≠ 2 := by
  constructor
  · norm_num [analyzeBestBet, calcProbabilities]
  · norm_num

/-- C4 amended: for every odds set in which no outcome has odds > 0,
`_analyze_best_bet` returns the fallback recommendation on home with
value_score 0, with recommended odds the odds map's home entry (2.0 only
when the home key is absent) and probability the probability map's home
entry (0.4 only when the home key is absent). -/
theorem c4_default_fallback_amended (odds : OddsDict) (probs : Probs) (hT aT : String)
    (h1 : ¬ 0 < odds.home.getD 0) (h2 : ¬ 0 < odds.away.getD 0)
    (h3 : ¬ 0 < odds.draw.getD 0) :
    analyzeBestBet odds probs hT aT =
      { recommendation := "Victoire " ++ hT
        recommended_odds := odds.home.getD 2
        probability := probs.home.getD (2/5)
        value_score := 0
        type := "home" } := by
  simp only [analyzeBestBet]
  rw [if_neg h1, if_neg h2, if_neg h3]
  simp only [List.nil_append]

/-- Witness for the amended C4 at the empty odds and probability
dictionaries. -/
theorem c4_default_fallback_amended_witness :
    (¬ 0 < (OddsDict.mk none none none).home.getD 0)
    ∧ (¬ 0 < (OddsDict.mk none none none).away.getD 0)
    ∧ (¬ 0 < (OddsDict.mk none none none).draw.getD 0)
    ∧ analyzeBestBet (OddsDict.mk none none none) (Probs.mk none none none) "H" "A" =
      { recommendation := "Victoire " ++ "H"
        recommended_odds := (OddsDict.mk none none none).home.getD 2
        probability := (Probs.mk none none none).home.getD (2/5)
        value_score := 0
        type := "home" } :=
  ⟨by norm_num, by norm_num, by norm_num,
    c4_default_fallback_amended (OddsDict.mk none none none) (Probs.mk none none none)
      "H" "A" (by norm_num) (by norm_num) (by norm_num)⟩

/-- Helper: `_is_value_bet` on a probability map whose three per-outcome
checks all return without a `KeyError` is the disjunction of the checks. -/
theorem isValueBet_ok (minO maxO : ℚ) (odds : OddsDict) (probs : Probs) (b1 b2 b3 : Bool)
    (h1 : vbCheck minO maxO (3/10) odds.home probs.home = .ok b1)
    (h2 : vbCheck minO maxO (3/10) odds.away probs.away = .ok b2)
    (h3 : vbCheck minO maxO (1/4) odds.draw probs.draw = .ok b3) :
    isValueBet minO maxO odds probs = .ok (b1 || b2 || b3) := by
  unfold isValueBet
  rw [h1, h2, h3]
  cases b1 <;> cases b2 <;> cases b3 <;> rfl

/-- Helper: a per-outcome loop iteration that returns without a `KeyError`
agrees with the claim's per-outcome check. -/
theorem specCheck_of_vbCheck (minO maxO thr : ℚ) (oddsEntry probEntry : Option ℚ) (b : Bool)
    (h : vbCheck minO maxO thr oddsEntry probEntry = .ok b) :
    specCheck minO maxO thr oddsEntry probEntry = b := by
  cases probEntry <;> cases oddsEntry <;>
    simp [vbCheck, specCheck] at h ⊢ <;> simp [h]

/-- C5: for every odds band and every odds set with a probability map whose
present outcomes all carry an odds entry (as every normalized probability map
built from the odds set does), `_is_value_bet` returns true iff some outcome
present in the map has odds inside the closed band `[min_odds, max_odds]`
and probability strictly greater than its per-outcome threshold (0.3 for
home and away, 0.25 for draw) — `valueBetSpec` is that strict-threshold
disjunction, so probability exactly 0.3 for home never qualifies and any
strictly larger probability with in-band odds does. -/
theorem c5_is_value_bet_iff_band_threshold (minO maxO : ℚ) (odds : OddsDict) (probs : Probs)
    (hh : probs.home.isSome → odds.home.isSome)
    (ha : probs.away.isSome → odds.away.isSome)
    (hd : probs.draw.isSome → odds.draw.isSome) :
    isValueBet minO maxO odds probs = Except.ok (valueBetSpec minO maxO odds probs) := by
  have e1 : ∃ b, vbCheck minO maxO (3/10) odds.home probs.home = .ok b := by
    cases hp : probs.home with
    | none => exact ⟨false, rfl⟩
    | some p =>
      obtain ⟨o, ho⟩ := Option.isSome_iff_exists.mp (hh (by simp [hp]))
      rw [ho]
      exact ⟨_, rfl⟩
  have e2 : ∃ b, vbCheck minO maxO (3/10) odds.away probs.away = .ok b := by
    cases hp : probs.away with
    | none => exact ⟨false, rfl⟩
    | some p =>
      obtain ⟨o, ho⟩ := Option.isSome_iff_exists.mp (ha (by simp [hp]))
      rw [ho]
      exact ⟨_, rfl⟩
  have e3 : ∃ b, vbCheck minO maxO (1/4) odds.draw probs.draw = .ok b := by
    cases hp : probs.draw with
    | none => exact ⟨false, rfl⟩
    | some p =>
      obtain ⟨o, ho⟩ := Option.isSome_iff_exists.mp (hd (by simp [hp]))
      rw [ho]
      exact ⟨_, rfl⟩
  obtain ⟨b1, hb1⟩ := e1
  obtain ⟨b2, hb2⟩ := e2
  obtain ⟨b3, hb3⟩ := e3
  rw [isValueBet_ok minO maxO odds probs b1 b2 b3 hb1 hb2 hb3]
  unfold valueBetSpec
  rw [specCheck_of_vbCheck _ _ _ _ _ _ hb1, specCheck_of_vbCheck _ _ _ _ _ _ hb2,
    specCheck_of_vbCheck _ _ _ _ _ _ hb3]

/-- Witness for C5 at the default band 1.5-5.0, odds home 2 / away 4 /
draw 4, and its normalized probability map 1/2, 1/4, 1/4. -/
theorem c5_is_value_bet_iff_band_threshold_witness :
    ((Probs.mk (some (1/2)) (some (1/4)) (some (1/4))).home.isSome →
      (OddsDict.mk (some 2) (some 4) (some 4)).home.isSome)
    ∧ ((Probs.mk (some (1/2)) (some (1/4)) (some (1/4))).away.isSome →
      (OddsDict.mk (some 2) (some 4) (some 4)).away.isSome)
    ∧ ((Probs.mk (some (1/2)) (some (1/4)) (some (1/4))).draw.isSome →
      (OddsDict.mk (some 2) (some 4) (some 4)).draw.isSome)
    ∧ isValueBet (3/2) 5 (OddsDict.mk (some 2) (some 4) (some 4))
        (Probs.mk (some (1/2)) (some (1/4)) (some (1/4)))
      = Except.ok (valueBetSpec (3/2) 5 (OddsDict.mk (some 2) (some 4) (some 4))
        (Probs.mk (some (1/2)) (some (1/4)) (some (1/4)))) :=
  ⟨by simp, by simp, by simp,
    c5_is_value_bet_iff_band_threshold (3/2) 5 (OddsDict.mk (some 2) (some 4) (some 4))
      (Probs.mk (some (1/2)) (some (1/4)) (some (1/4))) (by simp) (by simp) (by simp)⟩

/-- Helper: the MOYEN tier configuration. -/
theorem levelConfig_MOYEN : levelConfig "MOYEN" = ⟨60, 4, SortKey.confidence⟩ := by rfl

/-- Helper: the MOYEN combination type name. -/
theorem comboTypeNames_MOYEN : comboTypeNames "MOYEN" = some "Combiné MOYEN ⚖️" := by rfl

/-- C6: `generate_specific_combination` on five analyses of confidences
80, 75, 70, 65, 50 (each with a parseable `(cote: X)` recommendation giving
leg odds q1..q4 for the four selected) and tier MOYEN returns a combination
with exactly the four legs of confidence ≥ 60 ordered by confidence
descending, total odds `round(q1*q2*q3*q4, 2)` and average confidence 72,
which is a nearest integer to the mean 72.5 of the selected confidences. -/
theorem c6_generate_specific_combination_moyen
    (m1 m2 m3 m4 m5 r1 r2 r3 r4 r5 : String)
    (v1 v2 v3 v4 v5 : Bool) (q1 q2 q3 q4 : ℚ)
    (h1 : extractOdds r1 = some q1) (h2 : extractOdds r2 = some q2)
    (h3 : extractOdds r3 = some q3) (h4 : extractOdds r4 = some q4) :
    (genSpecificCombination
        [⟨m1, r1, 80, v1, none⟩, ⟨m2, r2, 75, v2, none⟩, ⟨m3, r3, 70, v3, none⟩,
         ⟨m4, r4, 65, v4, none⟩, ⟨m5, r5, 50, v5, none⟩] "MOYEN").1
      = Except.ok (some
        { type := "Combiné MOYEN ⚖️"
          «matches» := [⟨m1, r1, 80⟩, ⟨m2, r2, 75⟩, ⟨m3, r3, 70⟩, ⟨m4, r4, 65⟩]
          total_odds := pyRound2 (q1 * q2 * q3 * q4)
          avg_confidence := 72
          potential_return := pyRound2 (q1 * q2 * q3 * q4 * 10) })
    ∧ |(72 : ℚ) - (80 + 75 + 70 + 65) / 4| ≤ 1/2 := by
  constructor
  · simp only [genSpecificCombination, levelConfig_MOYEN, comboTypeNames_MOYEN,
      List.length_cons, List.length_nil]
    norm_num
    simp only [sortDescBy, insertDescBy]
    norm_num [List.length]
    have hcc : createCombination
        [⟨m1, r1, 80, v1, none⟩, ⟨m2, r2, 75, v2, none⟩, ⟨m3, r3, 70, v3, none⟩,
          ⟨m4, r4, 65, v4, none⟩] "Combiné MOYEN ⚖️"
        = Except.ok
          { type := "Combiné MOYEN ⚖️"
            «matches» := [⟨m1, r1, 80⟩, ⟨m2, r2, 75⟩, ⟨m3, r3, 70⟩, ⟨m4, r4, 65⟩]
            total_odds := pyRound2 (q1 * q2 * q3 * q4)
            avg_confidence := 72
            potential_return := pyRound2 (q1 * q2 * q3 * q4 * 10) } := by
      simp only [createCombination, collectLegs, h1, h2, h3, h4, List.foldl, List.map,
        List.length]
      norm_num [one_mul]
      norm_num [pyRound]
    rw [hcc]
  · rw [abs_le]
    constructor <;> norm_num

/-- Witness for C6 with concrete recommendation texts carrying odds
2, 3, 2, 5. -/
theorem c6_generate_specific_combination_moyen_witness :
    extractOdds "a1 (cote: 2)" = some 2
    ∧ extractOdds "a2 (cote: 3)" = some 3
    ∧ extractOdds "a3 (cote: 2)" = some 2
    ∧ extractOdds "a4 (cote: 5)" = some 5
    ∧ ((genSpecificCombination
        [⟨"M1", "a1 (cote: 2)", 80, false, none⟩, ⟨"M2", "a2 (cote: 3)", 75, false, none⟩,
         ⟨"M3", "a3 (cote: 2)", 70, false, none⟩, ⟨"M4", "a4 (cote: 5)", 65, false, none⟩,
         ⟨"M5", "a5 (cote: 2)", 50, false, none⟩] "MOYEN").1
      = Except.ok (some
        { type := "Combiné MOYEN ⚖️"
          «matches» := [⟨"M1", "a1 (cote: 2)", 80⟩, ⟨"M2", "a2 (cote: 3)", 75⟩,
            ⟨"M3", "a3 (cote: 2)", 70⟩, ⟨"M4", "a4 (cote: 5)", 65⟩]
          total_odds := pyRound2 (2 * 3 * 2 * 5)
          avg_confidence := 72
          potential_return := pyRound2 (2 * 3 * 2 * 5 * 10) })
      ∧ |(72 : ℚ) - (80 + 75 + 70 + 65) / 4| ≤ 1/2) := by
  have he1 : extractOdds "a1 (cote: 2)" = some 2 := by
    have h : extractOdds "a1 (cote: 2)" = some ((1:ℚ) * ((2:ℕ):ℚ)) := rfl
    rw [h]; norm_num
  have he2 : extractOdds "a2 (cote: 3)" = some 3 := by
    have h : extractOdds "a2 (cote: 3)" = some ((1:ℚ) * ((3:ℕ):ℚ)) := rfl
    rw [h]; norm_num
  have he3 : extractOdds "a3 (cote: 2)" = some 2 := by
    have h : extractOdds "a3 (cote: 2)" = some ((1:ℚ) * ((2:ℕ):ℚ)) := rfl
    rw [h]; norm_num
  have he4 : extractOdds "a4 (cote: 5)" = some 5 := by
    have h : extractOdds "a4 (cote: 5)" = some ((1:ℚ) * ((5:ℕ):ℚ)) := rfl
    rw [h]; norm_num
  exact ⟨he1, he2, he3, he4,
    c6_generate_specific_combination_moyen "M1" "M2" "M3" "M4" "M5"
      "a1 (cote: 2)" "a2 (cote: 3)" "a3 (cote: 2)" "a4 (cote: 5)" "a5 (cote: 2)"
      false false false false false 2 3 2 5 he1 he2 he3 he4⟩

/-- C7: whenever fewer than `combo_size` analyses have confidence ≥ 50
(including an input list shorter than `combo_size`), `generate_combinations`
returns the empty list, for every shuffle of the qualifying pool. -/
theorem c7_generate_combinations_insufficient (shuffle : List Analysis → List Analysis)
    (analyses : List Analysis) (comboSize : ℕ)
    (h : (analyses.filter (fun a => 50 ≤ a.confidence)).length < comboSize) :
    (generateCombinations shuffle analyses comboSize).1 = Except.ok [] := by
  simp only [generateCombinations]
  split_ifs <;> rfl

/-- Witness for C7: one analysis of confidence 30 cannot fill a triple. -/
theorem c7_generate_combinations_insufficient_witness :
    (([⟨"M", "r", 30, false, none⟩] : List Analysis).filter
      (fun a => 50 ≤ a.confidence)).length < 3
    ∧ (generateCombinations id [⟨"M", "r", 30, false, none⟩] 3).1 = Except.ok [] :=
  ⟨by decide, c7_generate_combinations_insufficient id [⟨"M", "r", 30, false, none⟩] 3
    (by decide)⟩

/-- C8 counterexample: a recommendation with no `(cote: ` segment makes
`_create_combination` raise (the parse failure escapes) instead of
substituting the default odds 2.0. -/
theorem c8_parse_failure_escapes_counterexample :
    createCombination [⟨"M", "Victoire X", 70, false, none⟩] "Combiné Sûr"
      = Except.error PyErr.parseError := rfl

/-- Helper: the extraction loop of `_create_combination` fails as soon as the
list contains a bet whose recommendation has no `(cote: ` segment. -/
theorem collectLegs_error_of_unparseable (b : Analysis) :
    ∀ bets : List Analysis, b ∈ bets → extractOdds b.recommendation = none →
      ∃ e, collectLegs bets = Except.error e := by
  intro bets
  induction bets with
  | nil => intro hmem; exact absurd hmem (List.not_mem_nil b)
  | cons x xs ih =>
    intro hmem hnone
    cases hx : extractOdds x.recommendation with
    | none => exact ⟨PyErr.parseError, by simp [collectLegs, hx]⟩
    | some q =>
      rcases List.mem_cons.mp hmem with rfl | hmem2
      · rw [hx] at hnone; cases hnone
      · obtain ⟨e, he⟩ := ih hmem2 hnone
        exact ⟨e, by simp [collectLegs, hx, he]⟩

/-- C8 amended: for an analysis whose recommendation has no `(cote: `
segment, the odds-sorting extraction of `generate_specific_combination`
substitutes the default odds 2.0 into `_extracted_odds`, but
`_create_combination` does not substitute: any combination containing such an
analysis makes it propagate the parse failure as an error. -/
theorem c8_parse_failure_amended :
    (∀ (bets : List Analysis) (ct : String) (b : Analysis), b ∈ bets →
        (listSplit "(cote: ".toList b.recommendation.toList).get? 1 = none →
        ∃ e, createCombination bets ct = Except.error e)
    ∧ ∀ b : Analysis,
        (listSplit "(cote: ".toList b.recommendation.toList).get? 1 = none →
        (assignExtractedOdds b).extractedOdds = some 2 := by
  have hnone : ∀ b : Analysis,
      (listSplit "(cote: ".toList b.recommendation.toList).get? 1 = none →
      extractOdds b.recommendation = none := by
    intro b hb
    unfold extractOdds
    rw [hb]
  constructor
  · intro bets ct b hmem hb
    obtain ⟨e, he⟩ := collectLegs_error_of_unparseable b bets hmem (hnone b hb)
    exact ⟨e, by simp [createCombination, he]⟩
  · intro b hb
    simp [assignExtractedOdds, hnone b hb]

/-- Witness for the amended C8 at the recommendation text `abc`. -/
theorem c8_parse_failure_amended_witness :
    ((⟨"M", "abc", 70, false, none⟩ : Analysis) ∈
      [(⟨"M", "abc", 70, false, none⟩ : Analysis)])
    ∧ (listSplit "(cote: ".toList ("abc" : String).toList).get? 1 = none
    ∧ (∃ e, createCombination [⟨"M", "abc", 70, false, none⟩] "T" = Except.error e)
    ∧ (assignExtractedOdds ⟨"M", "abc", 70, false, none⟩).extractedOdds = some 2 := by
  refine ⟨List.mem_singleton.mpr rfl, by decide, ?_, ?_⟩
  · exact c8_parse_failure_amended.1 [⟨"M", "abc", 70, false, none⟩] "T"
      ⟨"M", "abc", 70, false, none⟩ (List.mem_singleton.mpr rfl) (by decide)
  · exact c8_parse_failure_amended.2 ⟨"M", "abc", 70, false, none⟩ (by decide)

/-- C9 counterexample: the odds-sorting HIGH_RISK tier of
`generate_specific_combination` mutates its input records: each filtered
record gains the `_extracted_odds` key, so the post-call records differ from
the input records. -/
theorem c9_frame_counterexample :
    (genSpecificCombination
      [⟨"M1", "x", 50, false, none⟩, ⟨"M2", "y", 60, false, none⟩,
       ⟨"M3", "z", 45, false, none⟩] "HIGH_RISK").2
      ≠ [⟨"M1", "x", 50, false, none⟩, ⟨"M2", "y", 60, false, none⟩,
       ⟨"M3", "z", 45, false, none⟩] := by decide

/-- C9 amended: `generate_combinations` leaves every input record unchanged,
and so does `generate_specific_combination` for the confidence-sorted tiers
SAFE and MOYEN; only the odds-sorted HIGH_RISK tier adds the
`_extracted_odds` field to the filtered records. -/
theorem c9_frame_amended (shuffle : List Analysis → List Analysis)
    (analyses : List Analysis) (comboSize : ℕ) (level : String)
    (hlevel : level = "SAFE" ∨ level = "MOYEN") :
    (generateCombinations shuffle analyses comboSize).2 = analyses
    ∧ (genSpecificCombination analyses level).2 = analyses := by
  constructor
  · simp only [generateCombinations]
    split_ifs <;> (repeat' split) <;> rfl
  · rcases hlevel with rfl | rfl <;>
      (simp only [genSpecificCombination];
        split_ifs <;> (repeat' split) <;> simp_all [levelConfig, comboTypeNames])

/-- Witness for the amended C9 at the empty analysis list and the SAFE
tier. -/
theorem c9_frame_amended_witness :
    (("SAFE" : String) = "SAFE" ∨ ("SAFE" : String) = "MOYEN")
    ∧ (generateCombinations id ([] : List Analysis) 3).2 = []
    ∧ (genSpecificCombination ([] : List Analysis) "SAFE").2 = [] :=
  ⟨Or.inl rfl, (c9_frame_amended id [] 3 "SAFE" (Or.inl rfl)).1,
    (c9_frame_amended id [] 3 "SAFE" (Or.inl rfl)).2⟩

/-- C10: for every tier name outside SAFE, MOYEN and HIGH_RISK and every
list of at least 3 analyses, `generate_specific_combination` raises
`KeyError`: the configuration lookup silently falls back to MOYEN, but the
final `combo_type_names[level]` subscription fails. -/
theorem c10_unknown_level_keyerror (analyses : List Analysis) (level : String)
    (hlen : 3 ≤ analyses.length)
    (h1 : level ≠ "SAFE") (h2 : level ≠ "MOYEN") (h3 : level ≠ "HIGH_RISK") :
    (genSpecificCombination analyses level).1 = Except.error PyErr.keyError := by
  have hconf : levelConfig level = ⟨60, 4, SortKey.confidence⟩ := by
    unfold levelConfig; rw [if_neg h1, if_neg h2, if_neg h3]
  have hname : comboTypeNames level = none := by
    unfold comboTypeNames; rw [if_neg h1, if_neg h2, if_neg h3]
  simp only [genSpecificCombination, hconf, hname]
  rw [if_neg (by omega : ¬ analyses.length < 3)]

/-- Witness for C10 at the unknown tier name TURBO over three analyses. -/
theorem c10_unknown_level_keyerror_witness :
    3 ≤ ([⟨"M1", "x", 70, false, none⟩, ⟨"M2", "y", 60, false, none⟩,
      ⟨"M3", "z", 50, false, none⟩] : List Analysis).length
    ∧ ("TURBO" : String) ≠ "SAFE"
    ∧ ("TURBO" : String) ≠ "MOYEN"
    ∧ ("TURBO" : String) ≠ "HIGH_RISK"
    ∧ (genSpecificCombination
        [⟨"M1", "x", 70, false, none⟩, ⟨"M2", "y", 60, false, none⟩,
         ⟨"M3", "z", 50, false, none⟩] "TURBO").1 = Except.error PyErr.keyError :=
  ⟨by decide, by decide, by decide, by decide,
    c10_unknown_level_keyerror
      [⟨"M1", "x", 70, false, none⟩, ⟨"M2", "y", 60, false, none⟩,
       ⟨"M3", "z", 50, false, none⟩] "TURBO"
      (by decide) (by decide) (by decide) (by decide)⟩

end Betting
